import Mathlib

/-!
Verification of the cone-search subsystem of the BlogTutorials repository.

The repository's spatial-query code lives in two notebooks: a MongoDB
2dsphere notebook (`wgs_scale`, `cone_search`, `cone_search_advanced`) and a
HEALPix notebook (`cone_search` over stored `coords.healpix` integers).
The external document store's geometric primitives and the astropy-healpix
pixel enumeration are not part of the repository; where a property depends
on them they are modelled from the specification's interface description
(definitions marked `Modelled from the spec:`).
-/

open Real

/-- A brown-dwarf record as stored in the `dwarfs` collection: source id,
catalog coordinates (degrees), and the derived `coords.healpix` field
computed at store time (nside 32768, nested ordering, ICRS frame). -/
structure Doc where
  sourceId : ℤ
  ra : ℝ
  dec : ℝ
  healpix : ℤ

/-- The record `1207-3932` (source_id 11), the single expected result of the
HEALPix scenario search. -/
def bd11 : Doc := ⟨11, 181.889, -39.548, 6443584085⟩

/-- The record `1448+1031` (source_id 4), first expected result of the
ellipsoid scenario search. -/
def bd4 : Doc := ⟨4, 222.106791, 10.533056, 2188614871⟩

/-- The record `1439+1929` (source_id 7), second expected result of the
ellipsoid scenario search. -/
def bd7 : Doc := ⟨7, 219.868167, 19.487472, 2305451854⟩

/-- The 22-record brown-dwarf fixture of the tutorials, with the stored
HEALPix identifiers exactly as printed by the HEALPix notebook. -/
def bdFixture : List Doc :=
  [bd11,
   ⟨2, 202.95387, -1.280556, 6777358882⟩,
   bd4,
   bd7,
   ⟨14, 342.472709, 0.734611, 4945615057⟩,
   ⟨15, 332.05679, 29.355972, 3527258534⟩,
   ⟨17, 6.924875, 5.061583, 4759262121⟩,
   ⟨19, 327.068041, 40.0665, 3639926034⟩,
   ⟨20, 165.54097, -34.509869, 10061678832⟩,
   ⟨32, 63.831417, -9.585167, 5945842394⟩,
   ⟨34, 111.826001, 17.167, 5903955082⟩,
   ⟨36, 72.753833, -34.0375, 9077122522⟩,
   ⟨53, 228.753459, 48.794889, 2960203509⟩,
   ⟨61, 191.309, -44.485477, 11422991835⟩,
   ⟨63, 53.537667, -49.893944, 8822707629⟩,
   ⟨80, 238.24591, 29.81342, 2460281099⟩,
   ⟨82, 278.90792, 32.998497, 3895121831⟩,
   ⟨83, 236.94662, -24.397028, 11616859038⟩,
   ⟨86, 9.067376, 18.352889, 5205599093⟩,
   ⟨91, 79.692333, -27.946028, 5504145867⟩,
   ⟨96, 42.170846, -16.856022, 9604959407⟩,
   ⟨98, 40.297958, -3.449639, 4647676099⟩]

/-- A celestial coordinate, the `Coords` dataclass of the first notebook. -/
structure Coord where
  ra : ℝ
  dec : ℝ

/-- The notebook's longitude/latitude conversion `lon, lat = ra-180., dec`
used before any 2dsphere operation. -/
def toLonLat (c : Coord) : ℝ × ℝ := (c.ra - 180, c.dec)

/-- `np.radians`: degrees to radians. -/
noncomputable def radOfDeg (x : ℝ) : ℝ := x * π / 180

/-- WGS84 semi-major axis of the Earth in meters (`a` in `wgs_scale`). -/
def wgsA : ℝ := 6378137

/-- WGS84 semi-minor axis of the Earth in meters (`b` in `wgs_scale`;
defined by the code but not used in the formula). -/
noncomputable def wgsB : ℝ := 6356752.31414

/-- WGS84 eccentricity (`e` in `wgs_scale`). -/
noncomputable def wgsE : ℝ := 0.0818191908426

/-- `wgs_scale(lat)` from the notebook: meters per degree of meridian arc at
geodetic latitude `lat` (degrees), via the radius of curvature along the
meridian `rm = a*(1-e^2) / (1 - e^2*sin(radians(lat))^2)^1.5` and
`arc = rm * radians(1.0)`. -/
noncomputable def wgs_scale (lat : ℝ) : ℝ :=
  wgsA * (1 - wgsE ^ 2) / (1 - wgsE ^ 2 * Real.sin (radOfDeg lat) ^ 2) ^ ((3 : ℝ) / 2)
    * radOfDeg 1

/-- `scaleAtLatitude` written out exactly as the specification words it:
meridian radius of curvature `Rm(lat) = a*(1-e^2)/(1 - e^2*sin^2(lat))^1.5`,
returning `Rm(lat) * (pi/180)`. Stated separately from `wgs_scale` so the
two can be compared. -/
noncomputable def scaleAtLatitude (lat : ℝ) : ℝ :=
  wgsA * (1 - wgsE ^ 2) / (1 - wgsE ^ 2 * Real.sin (lat * π / 180) ^ 2) ^ ((3 : ℝ) / 2)
    * (π / 180)

/-- The cosine of the great-circle central angle between two sky positions
given in degrees (spherical law of cosines); the longitude offset `-180`
applied to both right ascensions cancels in the difference. -/
noncomputable def cosSep (ra1 dec1 ra2 dec2 : ℝ) : ℝ :=
  Real.sin (radOfDeg dec1) * Real.sin (radOfDeg dec2) +
    Real.cos (radOfDeg dec1) * Real.cos (radOfDeg dec2) * Real.cos (radOfDeg (ra1 - ra2))

/-- Great-circle separation in degrees between two sky positions. -/
noncomputable def sepDeg (ra1 dec1 ra2 dec2 : ℝ) : ℝ :=
  Real.arccos (cosSep ra1 dec1 ra2 dec2) * 180 / π

/-- `meter_radius = radius * scaling` from `cone_search`: the angular search
radius converted to linear units at the center's declination. -/
noncomputable def meter_radius (radius dec : ℝ) : ℝ := radius * wgs_scale dec

/-- Modelled from the spec: the external document store's
`findByGeoNear` / `$nearSphere` primitive (spec section 6) returns the
records whose spherical linear distance from the query point is at most
`maxDist`, where the store measures `K` linear units (meters) per degree of
great-circle arc on its reference sphere; `K` is a property of the external
store, bounded by the WGS84 radii when quantified in theorems. -/
def nearSphereWithin (K maxDist ra1 dec1 ra2 dec2 : ℝ) : Prop :=
  K * sepDeg ra1 dec1 ra2 dec2 ≤ maxDist

/-- The first notebook's `cone_search(ra, dec, radius)`: scale the radius to
meters at the center's declination (`meter_radius`), convert the center to
lon/lat via `ra-180`, and ask the store for records within that linear
distance of the point (stored points are `(doc.ra-180, doc.dec)`).
`K` is the external store's meters-per-degree constant. -/
def cone_search (K : ℝ) (docs : List Doc) (ra dec radius : ℝ) : Set Doc :=
  {d | d ∈ docs ∧
    nearSphereWithin K (meter_radius radius dec) (ra - 180) dec (d.ra - 180) d.dec}

/-- The first notebook's `cone_search_advanced(ra, dec, radius, ...)` using
the `$geoNear` aggregation: each returned record is annotated with its
linear distance (the `distanceField`), and only records within
`meter_radius` are returned. An element `(d, dist)` pairs the record with
the store-computed linear distance. -/
def cone_search_advanced (K : ℝ) (docs : List Doc) (ra dec radius : ℝ) :
    Set (Doc × ℝ) :=
  {p | p.1 ∈ docs ∧
    p.2 = K * sepDeg (ra - 180) dec (p.1.ra - 180) p.1.dec ∧
    p.2 ≤ meter_radius radius dec}

/-- The notebook's consumer loop `doc['distance']/wgs_scale(doc['coords']['dec'])`:
the reported angular distance in degrees for an annotated record. -/
noncomputable def reportedDeg (p : Doc × ℝ) : ℝ := p.2 / wgs_scale p.1.dec

/-- The only error the HEALPix notebook's `cone_search` can raise: the
`RuntimeError` for radii above 1800 arcsec. -/
inductive SearchError where
  | radiusTooLarge
deriving DecidableEq

/-- Total pixel count of a HEALPix tessellation: `12 * nside^2`
(spec section 3 `PixelIndexConfig` invariant). -/
def npix (nside : ℕ) : ℕ := 12 * nside ^ 2

/-- The HEALPix notebook's `cone_search(ra, dec, radius)`: `radius` is in
arcseconds; if `radius > 1800.` a `RuntimeError` is raised, otherwise the
store returns the documents whose stored `coords.healpix` value is a member
of the pixel set enumerated for the cone (`hp.cone_search_skycoord`,
abstracted as the `conePix` argument). -/
def hpConeSearch (conePix : ℝ → ℝ → ℚ → Set ℤ) (docs : List Doc)
    (ra dec : ℝ) (radius : ℚ) : Except SearchError (Set Doc) :=
  if 1800 < radius then Except.error SearchError.radiusTooLarge
  else Except.ok {d | d ∈ docs ∧ d.healpix ∈ conePix ra dec radius}

/-- A pixel-set function whose enumerated identifiers all lie below
`npix 1 = 12`: the identifier range of an `nside = 1` tessellation, i.e. a
query-time configuration coarser than (and incompatible with) the
`nside = 32768` configuration used to populate the stored `coords.healpix`
values. -/
def conePixLow : ℝ → ℝ → ℚ → Set ℤ := fun _ _ _ => {p | 0 ≤ p ∧ p < 12}

/-! ### Basic facts about `wgs_scale` -/

lemma wgsE_sq_lt_one : wgsE ^ 2 < 1 := by norm_num [wgsE]

lemma wgsE_sq_nonneg : 0 ≤ wgsE ^ 2 := by positivity

/-- The base of the 1.5-power in `wgs_scale` is bounded below by `1 - e^2`. -/
lemma wgs_base_lb (lat : ℝ) :
    1 - wgsE ^ 2 ≤ 1 - wgsE ^ 2 * Real.sin (radOfDeg lat) ^ 2 := by
  have hs : Real.sin (radOfDeg lat) ^ 2 ≤ 1 := sin_sq_le_one _
  nlinarith [wgsE_sq_nonneg]

lemma wgs_base_ub (lat : ℝ) :
    1 - wgsE ^ 2 * Real.sin (radOfDeg lat) ^ 2 ≤ 1 := by
  have hs : 0 ≤ Real.sin (radOfDeg lat) ^ 2 := sq_nonneg _
  nlinarith [wgsE_sq_nonneg]

lemma wgs_base_pos (lat : ℝ) :
    0 < 1 - wgsE ^ 2 * Real.sin (radOfDeg lat) ^ 2 := by
  have h := wgs_base_lb lat
  have : (0 : ℝ) < 1 - wgsE ^ 2 := by norm_num [wgsE]
  linarith

lemma wgs_scale_pos (lat : ℝ) : 0 < wgs_scale lat := by
  unfold wgs_scale
  have hb := wgs_base_pos lat
  have hnum : (0 : ℝ) < wgsA * (1 - wgsE ^ 2) := by norm_num [wgsA, wgsE]
  have hden : (0 : ℝ) < (1 - wgsE ^ 2 * Real.sin (radOfDeg lat) ^ 2) ^ ((3 : ℝ) / 2) :=
    Real.rpow_pos_of_pos hb _
  have hrad : (0 : ℝ) < radOfDeg 1 := by
    unfold radOfDeg
    positivity
  positivity

/-- C9. Implicit claim: `wgs_scale` is total and strictly positive over every
real latitude; since `e^2 < 1`, the base `1 - e^2*sin^2(lat)` is at least
`1 - e^2 > 0`, so the 1.5-power and the division are always well defined and
the returned meters-per-degree value is strictly positive. -/
theorem wgs_scale_total_pos (lat : ℝ) :
    1 - wgsE ^ 2 ≤ 1 - wgsE ^ 2 * Real.sin (radOfDeg lat) ^ 2 ∧
      0 < 1 - wgsE ^ 2 * Real.sin (radOfDeg lat) ^ 2 ∧ 0 < wgs_scale lat :=
  ⟨wgs_base_lb lat, wgs_base_pos lat, wgs_scale_pos lat⟩

/-- C10. Implicit claim: `wgs_scale` is an even function of latitude
(latitude enters only through `sin^2`), so cone searches centered at
declination `d` and `-d` convert the same angular radius to the same linear
`meter_radius`. -/
theorem wgs_scale_even (lat radius : ℝ) :
    wgs_scale (-lat) = wgs_scale lat ∧
      meter_radius radius (-lat) = meter_radius radius lat := by
  have hrad : radOfDeg (-lat) = -(radOfDeg lat) := by unfold radOfDeg; ring
  have hs : Real.sin (radOfDeg (-lat)) ^ 2 = Real.sin (radOfDeg lat) ^ 2 := by
    rw [hrad, Real.sin_neg]; ring
  have h1 : wgs_scale (-lat) = wgs_scale lat := by unfold wgs_scale; rw [hs]
  exact ⟨h1, by unfold meter_radius; rw [h1]⟩

/-! ### The HEALPix radius cap -/

/-- C8. Implicit claim: the HEALPix `cone_search` radius cap uses a strict
comparison: the query errors exactly when `radius > 1800` arcsec, so a
radius of exactly 1800 is accepted, and non-positive radii (0 or negative)
also pass the check and proceed to the membership query. -/
theorem hpConeSearch_cap_strict (conePix : ℝ → ℝ → ℚ → Set ℤ) (docs : List Doc)
    (ra dec : ℝ) (radius : ℚ) :
    (hpConeSearch conePix docs ra dec radius = Except.error SearchError.radiusTooLarge ↔
        1800 < radius) ∧
      (∃ S, hpConeSearch conePix docs ra dec 1800 = Except.ok S) ∧
      (∃ S, hpConeSearch conePix docs ra dec 0 = Except.ok S) ∧
      (∃ S, hpConeSearch conePix docs ra dec (-60) = Except.ok S) := by
  refine ⟨?_, ?_, ?_, ?_⟩
  · unfold hpConeSearch
    split_ifs with h
    · simp [h]
    · simp [h]
  · exact ⟨_, by unfold hpConeSearch; rw [if_neg (by norm_num)]⟩
  · exact ⟨_, by unfold hpConeSearch; rw [if_neg (by norm_num)]⟩
  · exact ⟨_, by unfold hpConeSearch; rw [if_neg (by norm_num)]⟩

/-- C3 counterexample. The claim asserts the function enforces `radius > 0`
as a precondition; at the concrete non-positive radius `-5` arcsec the
function does not raise but executes the membership query. -/
theorem hpConeSearch_no_positivity_check :
    hpConeSearch conePixLow bdFixture 181.9 (-39.5) (-5) =
        Except.ok {d | d ∈ bdFixture ∧ d.healpix ∈ conePixLow 181.9 (-39.5) (-5)} ∧
      (-5 : ℚ) ≤ 0 :=
  ⟨by unfold hpConeSearch; rw [if_neg (by norm_num)], by norm_num⟩

/-- C3 (amended). The HEALPix `cone_search` raises `RadiusTooLarge` exactly
for radii above the 1800-arcsec cap: a 3600-arcsec request fails with the
error instead of executing the query, and any radius at most 1800 (with no
lower-bound check) executes the query. -/
theorem hpConeSearch_cap_enforced (conePix : ℝ → ℝ → ℚ → Set ℤ) (docs : List Doc)
    (ra dec : ℝ) :
    hpConeSearch conePix docs ra dec 3600 = Except.error SearchError.radiusTooLarge ∧
      ∀ radius : ℚ, radius ≤ 1800 →
        ∃ S, hpConeSearch conePix docs ra dec radius = Except.ok S := by
  constructor
  · unfold hpConeSearch
    rw [if_pos (by norm_num)]
  · intro radius h
    exact ⟨_, by unfold hpConeSearch; rw [if_neg (by exact not_lt.mpr h)]⟩

/-- C3 witness: the amended theorem applied at the concrete inputs of the
scenario (3600-arcsec request against the 1800-arcsec cap, and the boundary
radius 1800 itself). -/
theorem hpConeSearch_cap_enforced_witness :
    hpConeSearch conePixLow bdFixture 181.9 (-39.5) 3600 =
        Except.error SearchError.radiusTooLarge ∧
      ∃ S, hpConeSearch conePixLow bdFixture 181.9 (-39.5) 1800 = Except.ok S :=
  ⟨(hpConeSearch_cap_enforced conePixLow bdFixture 181.9 (-39.5)).1,
   (hpConeSearch_cap_enforced conePixLow bdFixture 181.9 (-39.5)).2 1800 (by norm_num)⟩

/-! ### Config mismatch on the pixel index -/

/-- C4 counterexample. Evaluating the HEALPix `cone_search` with a pixel
enumeration drawn from an incompatible (nside = 1) configuration — whose
identifiers all lie below `npix 1 = 12` while the stored values were
computed at nside = 32768 — silently yields `ok` with the empty result set;
no error of any kind is raised, contradicting the claim that the mismatch
is surfaced as an explicit `ConfigMismatch` error. -/
theorem hpConeSearch_mismatch_cex :
    hpConeSearch conePixLow bdFixture 181.9 (-39.5) 180 = Except.ok ∅ ∧
      hpConeSearch conePixLow bdFixture 181.9 (-39.5) 180 ≠
        Except.error SearchError.radiusTooLarge := by
  have hempty :
      {d | d ∈ bdFixture ∧ d.healpix ∈ conePixLow 181.9 (-39.5) 180} = (∅ : Set Doc) := by
    rw [Set.eq_empty_iff_forall_not_mem]
    rintro d ⟨hmem, h0, h12⟩
    simp only [bdFixture] at hmem
    fin_cases hmem <;> simp_all [bd11, bd4, bd7, conePixLow]
  constructor
  · unfold hpConeSearch
    rw [if_neg (by norm_num), hempty]
  · unfold hpConeSearch
    rw [if_neg (by norm_num)]
    exact fun h => by cases h

/-- C4 (amended). The code performs no configuration check at all: for any
query-time pixel enumeration producing only identifiers of an nside = 1
tessellation (all below `npix 1 = 12`, hence disjoint from the stored
nside = 32768 identifiers), the search silently returns an `ok` result
containing no fixture record, rather than a `ConfigMismatch` error — the
naive failure mode the spec's design notes attribute to the source. -/
theorem hpConeSearch_mismatch_silent (conePix : ℝ → ℝ → ℚ → Set ℤ)
    (h : ∀ ra dec r p, p ∈ conePix ra dec r → p < (npix 1 : ℤ)) :
    ∃ S, hpConeSearch conePix bdFixture 181.9 (-39.5) 180 = Except.ok S ∧
      ∀ d ∈ bdFixture, d ∉ S := by
  refine ⟨_, by unfold hpConeSearch; rw [if_neg (by norm_num)], ?_⟩
  rintro d hd ⟨-, hp⟩
  have hlt := h _ _ _ _ hp
  simp only [bdFixture] at hd
  fin_cases hd <;> simp_all [bd11, bd4, bd7, npix]

/-- C4 witness: the amended theorem applied to the concrete incompatible
enumeration `conePixLow`. -/
theorem hpConeSearch_mismatch_silent_witness :
    ∃ S, hpConeSearch conePixLow bdFixture 181.9 (-39.5) 180 = Except.ok S ∧
      ∀ d ∈ bdFixture, d ∉ S :=
  hpConeSearch_mismatch_silent conePixLow
    (fun _ _ _ p hp => by simpa [npix] using hp.2)

/-! ### The longitude conversion -/

/-- C2 counterexample. At the valid boundary coordinate `ra = 360` the
conversion `lon = ra - 180` yields `lon = 180`, which is outside the
half-open interval `[-180, 180)` and in particular is not `-180`;
the claim that `ra = 360` maps to `lon = -180` fails on the code. -/
theorem toLonLat_wraparound_cex :
    (toLonLat ⟨360, 0⟩).1 = 180 ∧ ¬(toLonLat ⟨360, 0⟩).1 < 180 ∧
      (toLonLat ⟨360, 0⟩).1 ≠ -180 := by
  norm_num [toLonLat]

/-- C2 (amended). For a coordinate with `ra` in the half-open interval
`[0, 360)` and `dec` in `[-90, 90]`, `toLonLat` returns a longitude in
`[-180, 180)` and a latitude in `[-90, 90]`, and `ra = 0` maps to
`lon = -180`; `ra = 360` instead maps to `lon = 180` (see the
counterexample), so only the `ra = 0` endpoint reaches `-180`. -/
theorem toLonLat_range (c : Coord) (h0 : 0 ≤ c.ra) (h1 : c.ra < 360)
    (h2 : -90 ≤ c.dec) (h3 : c.dec ≤ 90) :
    (-180 ≤ (toLonLat c).1 ∧ (toLonLat c).1 < 180) ∧
      (-90 ≤ (toLonLat c).2 ∧ (toLonLat c).2 ≤ 90) ∧
      (c.ra = 0 → (toLonLat c).1 = -180) := by
  simp only [toLonLat]
  exact ⟨⟨by linarith, by linarith⟩, ⟨h2, h3⟩, fun h => by rw [h]; norm_num⟩

/-- C2 witness: the amended theorem at the concrete coordinate
`(ra = 0, dec = 45)`, whose longitude is exactly `-180`. -/
theorem toLonLat_range_witness :
    (-180 ≤ (toLonLat ⟨0, 45⟩).1 ∧ (toLonLat ⟨0, 45⟩).1 < 180) ∧
      (-90 ≤ (toLonLat ⟨0, 45⟩).2 ∧ (toLonLat ⟨0, 45⟩).2 ≤ 90) ∧
      ((Coord.mk 0 45).ra = 0 → (toLonLat ⟨0, 45⟩).1 = -180) :=
  toLonLat_range ⟨0, 45⟩ (by norm_num) (by norm_num) (by norm_num) (by norm_num)

/-! ### Separation toolkit -/

lemma arccos_anti {x y : ℝ} (h : x ≤ y) : Real.arccos y ≤ Real.arccos x := by
  rw [Real.arccos_eq_pi_div_two_sub_arcsin, Real.arccos_eq_pi_div_two_sub_arcsin]
  exact sub_le_sub_left (Real.monotone_arcsin h) _

lemma radOfDeg_mono {x y : ℝ} (h : x ≤ y) : radOfDeg x ≤ radOfDeg y := by
  unfold radOfDeg
  have := Real.pi_pos
  nlinarith

lemma radOfDeg_nonneg {x : ℝ} (h : 0 ≤ x) : 0 ≤ radOfDeg x := by
  unfold radOfDeg
  positivity

lemma radOfDeg_ninety : radOfDeg 90 = π / 2 := by unfold radOfDeg; ring

lemma radOfDeg_oneeighty : radOfDeg 180 = π := by unfold radOfDeg; ring

lemma radOfDeg_neg (x : ℝ) : radOfDeg (-x) = -(radOfDeg x) := by unfold radOfDeg; ring

lemma radOfDeg_le_pi {x : ℝ} (h : x ≤ 180) : radOfDeg x ≤ π := by
  rw [← radOfDeg_oneeighty]
  exact radOfDeg_mono h

/-- Cosine of a declination within `[-90, 90]` degrees is nonnegative. -/
lemma cos_radOfDeg_nonneg {d : ℝ} (h1 : -90 ≤ d) (h2 : d ≤ 90) :
    0 ≤ Real.cos (radOfDeg d) := by
  refine Real.cos_nonneg_of_mem_Icc ⟨?_, ?_⟩
  · rw [← radOfDeg_ninety, ← radOfDeg_neg]
    exact radOfDeg_mono h1
  · rw [← radOfDeg_ninety]
    exact radOfDeg_mono h2

/-- `cosSep` rewritten through the declination difference. -/
lemma cosSep_eq (ra1 dec1 ra2 dec2 : ℝ) :
    cosSep ra1 dec1 ra2 dec2 =
      Real.cos (radOfDeg (dec1 - dec2)) -
        Real.cos (radOfDeg dec1) * Real.cos (radOfDeg dec2) *
          (1 - Real.cos (radOfDeg (ra1 - ra2))) := by
  unfold cosSep
  rw [show radOfDeg (dec1 - dec2) = radOfDeg dec1 - radOfDeg dec2 by unfold radOfDeg; ring,
    Real.cos_sub]
  ring

lemma sepDeg_nonneg (ra1 dec1 ra2 dec2 : ℝ) : 0 ≤ sepDeg ra1 dec1 ra2 dec2 := by
  unfold sepDeg
  have := Real.pi_pos
  have := Real.arccos_nonneg (cosSep ra1 dec1 ra2 dec2)
  positivity

/-- Converting a cosine upper bound into a separation lower bound. -/
lemma sepDeg_ge_of_cosSep_le {ra1 dec1 ra2 dec2 t : ℝ} (h0 : 0 ≤ t) (h180 : t ≤ 180)
    (hc : cosSep ra1 dec1 ra2 dec2 ≤ Real.cos (radOfDeg t)) :
    t ≤ sepDeg ra1 dec1 ra2 dec2 := by
  have ha := arccos_anti hc
  rw [Real.arccos_cos (radOfDeg_nonneg h0) (radOfDeg_le_pi h180)] at ha
  have hπ := Real.pi_pos
  have ht : radOfDeg t * 180 / π = t := by unfold radOfDeg; field_simp
  unfold sepDeg
  calc t = radOfDeg t * 180 / π := ht.symm
    _ ≤ Real.arccos (cosSep ra1 dec1 ra2 dec2) * 180 / π := by gcongr

/-- Converting a cosine lower bound into a separation upper bound. -/
lemma sepDeg_le_of_cosSep_ge {ra1 dec1 ra2 dec2 t : ℝ} (h0 : 0 ≤ t) (h180 : t ≤ 180)
    (hc : Real.cos (radOfDeg t) ≤ cosSep ra1 dec1 ra2 dec2) :
    sepDeg ra1 dec1 ra2 dec2 ≤ t := by
  have ha := arccos_anti hc
  rw [Real.arccos_cos (radOfDeg_nonneg h0) (radOfDeg_le_pi h180)] at ha
  have hπ := Real.pi_pos
  have ht : radOfDeg t * 180 / π = t := by unfold radOfDeg; field_simp
  unfold sepDeg
  calc Real.arccos (cosSep ra1 dec1 ra2 dec2) * 180 / π
      ≤ radOfDeg t * 180 / π := by gcongr
    _ = t := ht

/-- The separation is at least the declination difference. -/
lemma sepDeg_ge_decDiff (ra1 dec1 ra2 dec2 : ℝ) (h1a : -90 ≤ dec1) (h1b : dec1 ≤ 90)
    (h2a : -90 ≤ dec2) (h2b : dec2 ≤ 90) :
    dec1 - dec2 ≤ sepDeg ra1 dec1 ra2 dec2 ∧
      dec2 - dec1 ≤ sepDeg ra1 dec1 ra2 dec2 := by
  have hcc : 0 ≤ Real.cos (radOfDeg dec1) * Real.cos (radOfDeg dec2) :=
    mul_nonneg (cos_radOfDeg_nonneg h1a h1b) (cos_radOfDeg_nonneg h2a h2b)
  have hone : Real.cos (radOfDeg (ra1 - ra2)) ≤ 1 := Real.cos_le_one _
  have hkey : cosSep ra1 dec1 ra2 dec2 ≤ Real.cos (radOfDeg (dec1 - dec2)) := by
    rw [cosSep_eq]
    nlinarith
  constructor
  · rcases le_or_lt (dec1 - dec2) 0 with h | h
    · exact h.trans (sepDeg_nonneg _ _ _ _)
    · exact sepDeg_ge_of_cosSep_le h.le (by linarith) hkey
  · rcases le_or_lt (dec2 - dec1) 0 with h | h
    · exact h.trans (sepDeg_nonneg _ _ _ _)
    · have hkey' : cosSep ra1 dec1 ra2 dec2 ≤ Real.cos (radOfDeg (dec2 - dec1)) := by
        rw [show dec2 - dec1 = -(dec1 - dec2) by ring, radOfDeg_neg, Real.cos_neg]
        exact hkey
      exact sepDeg_ge_of_cosSep_le h.le (by linarith) hkey'

/-- Path bound: the separation is at most the sum of the declination
difference and the longitude difference (for same-hemisphere declinations
and a total below 180 degrees). -/
lemma sepDeg_le_sum {ra1 dec1 ra2 dec2 A B : ℝ} (hA0 : 0 ≤ A) (hB0 : 0 ≤ B)
    (hAB : A + B ≤ 180)
    (hdec : dec1 - dec2 = A ∨ dec2 - dec1 = A)
    (hra : ra1 - ra2 = B ∨ ra2 - ra1 = B)
    (hs : 0 ≤ Real.sin (radOfDeg dec1) * Real.sin (radOfDeg dec2)) :
    sepDeg ra1 dec1 ra2 dec2 ≤ A + B := by
  have hcosA : Real.cos (radOfDeg (dec1 - dec2)) = Real.cos (radOfDeg A) := by
    rcases hdec with h | h
    · rw [h]
    · rw [show dec1 - dec2 = -A by linarith, radOfDeg_neg, Real.cos_neg]
  have hcosB : Real.cos (radOfDeg (ra1 - ra2)) = Real.cos (radOfDeg B) := by
    rcases hra with h | h
    · rw [h]
    · rw [show ra1 - ra2 = -B by linarith, radOfDeg_neg, Real.cos_neg]
  have hsinA : 0 ≤ Real.sin (radOfDeg A) :=
    Real.sin_nonneg_of_nonneg_of_le_pi (radOfDeg_nonneg hA0) (radOfDeg_le_pi (by linarith))
  have hsinB : 0 ≤ Real.sin (radOfDeg B) :=
    Real.sin_nonneg_of_nonneg_of_le_pi (radOfDeg_nonneg hB0) (radOfDeg_le_pi (by linarith))
  have hid : Real.cos (radOfDeg (dec1 - dec2)) =
      Real.cos (radOfDeg dec1) * Real.cos (radOfDeg dec2) +
        Real.sin (radOfDeg dec1) * Real.sin (radOfDeg dec2) := by
    rw [show radOfDeg (dec1 - dec2) = radOfDeg dec1 - radOfDeg dec2 by unfold radOfDeg; ring,
      Real.cos_sub]
  have hsum : Real.cos (radOfDeg (A + B)) =
      Real.cos (radOfDeg A) * Real.cos (radOfDeg B) -
        Real.sin (radOfDeg A) * Real.sin (radOfDeg B) := by
    rw [show radOfDeg (A + B) = radOfDeg A + radOfDeg B by unfold radOfDeg; ring,
      Real.cos_add]
  have honeB : Real.cos (radOfDeg B) ≤ 1 := Real.cos_le_one _
  have hge : Real.cos (radOfDeg (A + B)) ≤ cosSep ra1 dec1 ra2 dec2 := by
    rw [cosSep_eq, hcosA, hcosB, hsum]
    nlinarith [mul_nonneg (show (0:ℝ) ≤ 1 - Real.cos (radOfDeg B) by linarith) hs,
      mul_nonneg hsinA hsinB]
  exact sepDeg_le_of_cosSep_ge (by linarith) hAB hge

/-- For a center at declination 12 and a target whose right ascension
differs by between 90 and 270 degrees, the separation is at least 10.3
degrees (in fact close to 90, but 10.3 is all the scenario needs). -/
lemma sepDeg_lon_far {ra1 ra2 dec2 : ℝ} (h2a : -90 ≤ dec2) (h2b : dec2 ≤ 90)
    (hB : (90 ≤ ra1 - ra2 ∧ ra1 - ra2 ≤ 270) ∨ (90 ≤ ra2 - ra1 ∧ ra2 - ra1 ≤ 270)) :
    (10.3 : ℝ) ≤ sepDeg ra1 12 ra2 dec2 := by
  have hπl := Real.pi_gt_3141592
  have hπu := Real.pi_lt_3141593
  have hπ := Real.pi_pos
  have hcosB : Real.cos (radOfDeg (ra1 - ra2)) ≤ 0 := by
    have key : ∀ x : ℝ, 90 ≤ x → x ≤ 270 → Real.cos (radOfDeg x) ≤ 0 := by
      intro x hx1 hx2
      refine Real.cos_nonpos_of_pi_div_two_le_of_le ?_ ?_
      · rw [← radOfDeg_ninety]; exact radOfDeg_mono hx1
      · have : radOfDeg x ≤ radOfDeg 270 := radOfDeg_mono hx2
        have h270 : radOfDeg 270 = π + π / 2 := by unfold radOfDeg; ring
        linarith [h270 ▸ this]
    rcases hB with ⟨h1, h2⟩ | ⟨h1, h2⟩
    · exact key _ h1 h2
    · rw [show ra1 - ra2 = -(ra2 - ra1) by ring, radOfDeg_neg, Real.cos_neg]
      exact key _ h1 h2
  have hc1 : 0 ≤ Real.cos (radOfDeg 12) := cos_radOfDeg_nonneg (by norm_num) (by norm_num)
  have hc2 : 0 ≤ Real.cos (radOfDeg dec2) := cos_radOfDeg_nonneg h2a h2b
  have hs1u : Real.sin (radOfDeg 12) ≤ radOfDeg 12 :=
    le_of_lt (Real.sin_lt (by unfold radOfDeg; positivity))
  have hs1n : 0 ≤ Real.sin (radOfDeg 12) :=
    Real.sin_nonneg_of_nonneg_of_le_pi (radOfDeg_nonneg (by norm_num))
      (radOfDeg_le_pi (by norm_num))
  have hs2 : Real.sin (radOfDeg dec2) ≤ 1 := Real.sin_le_one _
  have hrad12 : radOfDeg 12 ≤ 0.20944 := by
    unfold radOfDeg; nlinarith
  have hcs : cosSep ra1 12 ra2 dec2 ≤ 0.20944 := by
    unfold cosSep
    nlinarith [mul_nonneg hc1 hc2, Real.neg_one_le_sin (radOfDeg dec2)]
  have hcos103 : (0.20944 : ℝ) ≤ Real.cos (radOfDeg 10.3) := by
    have hb := Real.one_sub_sq_div_two_le_cos (x := radOfDeg 10.3)
    have h1 : radOfDeg 10.3 ≤ 0.17977 := by unfold radOfDeg; nlinarith
    have h2 : 0 ≤ radOfDeg 10.3 := radOfDeg_nonneg (by norm_num)
    nlinarith
  exact sepDeg_ge_of_cosSep_le (by norm_num) (by norm_num) (by linarith)

/-! ### Numeric bounds for `wgs_scale` -/

lemma rpow_three_halves (x : ℝ) (hx : 0 ≤ x) :
    x ^ ((3 : ℝ) / 2) = x * Real.sqrt x := by
  rcases eq_or_lt_of_le hx with h | h
  · rw [← h, Real.zero_rpow (by norm_num), Real.sqrt_zero, mul_zero]
  · rw [show (3 : ℝ) / 2 = 1 + 1 / 2 by norm_num, Real.rpow_add h, Real.rpow_one,
      Real.sqrt_eq_rpow]

lemma wgs_sqrt_bounds :
    (0.99664 : ℝ) ≤ Real.sqrt (1 - wgsE ^ 2) ∧ Real.sqrt (1 - wgsE ^ 2) ≤ 0.99665 := by
  have hnn : (0 : ℝ) ≤ 1 - wgsE ^ 2 := by norm_num [wgsE]
  have hsq := Real.sq_sqrt hnn
  have hs0 := Real.sqrt_nonneg (1 - wgsE ^ 2)
  constructor
  · nlinarith [show ((0.99664 : ℝ)) ^ 2 ≤ 1 - wgsE ^ 2 by norm_num [wgsE]]
  · nlinarith [show (1 : ℝ) - wgsE ^ 2 ≤ ((0.99665 : ℝ)) ^ 2 by norm_num [wgsE]]

/-- Global bounds on `wgs_scale`: between the equatorial and polar
meters-per-degree values (with a little slack). -/
lemma wgs_scale_global_bounds (lat : ℝ) :
    (110500 : ℝ) ≤ wgs_scale lat ∧ wgs_scale lat ≤ 111696 := by
  have hπl := Real.pi_gt_3141592
  have hπu := Real.pi_lt_3141593
  have hπ := Real.pi_pos
  have hbpos := wgs_base_pos lat
  have hblb := wgs_base_lb lat
  have hbub := wgs_base_ub lat
  have he : (0 : ℝ) < 1 - wgsE ^ 2 := by norm_num [wgsE]
  have hN : (0 : ℝ) < wgsA * (1 - wgsE ^ 2) := by norm_num [wgsA, wgsE]
  have hrad1 : radOfDeg 1 = π / 180 := by unfold radOfDeg; ring
  set D := 1 - wgsE ^ 2 * Real.sin (radOfDeg lat) ^ 2 with hD
  have hDpow_pos : 0 < D ^ ((3 : ℝ) / 2) := Real.rpow_pos_of_pos hbpos _
  constructor
  · -- lower bound: the power of the base is at most 1
    have hD1 : D ^ ((3 : ℝ) / 2) ≤ 1 := Real.rpow_le_one hbpos.le hbub (by norm_num)
    have hdiv : wgsA * (1 - wgsE ^ 2) ≤ wgsA * (1 - wgsE ^ 2) / D ^ ((3 : ℝ) / 2) := by
      rw [le_div_iff hDpow_pos]
      nlinarith
    have hlow : (110500 : ℝ) ≤ wgsA * (1 - wgsE ^ 2) * (π / 180) := by
      unfold wgsA wgsE
      nlinarith
    unfold wgs_scale
    rw [hrad1, ← hD]
    calc (110500 : ℝ) ≤ wgsA * (1 - wgsE ^ 2) * (π / 180) := hlow
      _ ≤ wgsA * (1 - wgsE ^ 2) / D ^ ((3 : ℝ) / 2) * (π / 180) := by
          have := mul_le_mul_of_nonneg_right hdiv (show (0 : ℝ) ≤ π / 180 by positivity)
          linarith
  · -- upper bound: the power of the base is at least (1-e^2)^(3/2)
    have hsq := wgs_sqrt_bounds
    have hD2 : (1 - wgsE ^ 2) * 0.99664 ≤ D ^ ((3 : ℝ) / 2) := by
      have h1 : ((1 : ℝ) - wgsE ^ 2) ^ ((3 : ℝ) / 2) ≤ D ^ ((3 : ℝ) / 2) :=
        Real.rpow_le_rpow he.le hblb (by norm_num)
      rw [rpow_three_halves _ he.le] at h1
      nlinarith [hsq.1]
    have hdiv : wgsA * (1 - wgsE ^ 2) / D ^ ((3 : ℝ) / 2) ≤
        wgsA * (1 - wgsE ^ 2) / ((1 - wgsE ^ 2) * 0.99664) := by
      gcongr
    have hQ : wgsA * (1 - wgsE ^ 2) / ((1 - wgsE ^ 2) * 0.99664) = wgsA / 0.99664 := by
      rw [mul_comm (1 - wgsE ^ 2) (0.99664 : ℝ),
        show wgsA * (1 - wgsE ^ 2) = (1 - wgsE ^ 2) * wgsA by ring, mul_div_mul_comm]
      field_simp
      ring
    rw [hQ] at hdiv
    have hfin : wgsA / 0.99664 * (π / 180) ≤ 111696 := by
      unfold wgsA
      nlinarith
    unfold wgs_scale
    rw [hrad1, ← hD]
    calc wgsA * (1 - wgsE ^ 2) / D ^ ((3 : ℝ) / 2) * (π / 180)
        ≤ wgsA / 0.99664 * (π / 180) := by
          have := mul_le_mul_of_nonneg_right hdiv (show (0 : ℝ) ≤ π / 180 by positivity)
          linarith
      _ ≤ 111696 := hfin

lemma radOfDeg_one : radOfDeg 1 = π / 180 := by unfold radOfDeg; ring

lemma wgs_scale_zero_eq : wgs_scale 0 = wgsA * (1 - wgsE ^ 2) * (π / 180) := by
  unfold wgs_scale
  rw [show radOfDeg (0 : ℝ) = 0 by unfold radOfDeg; ring, Real.sin_zero, radOfDeg_one]
  norm_num [Real.one_rpow]

lemma wgs_scale_ninety_eq :
    wgs_scale 90 = wgsA / Real.sqrt (1 - wgsE ^ 2) * (π / 180) := by
  have he : (0 : ℝ) < 1 - wgsE ^ 2 := by norm_num [wgsE]
  have hs : 0 < Real.sqrt (1 - wgsE ^ 2) := Real.sqrt_pos.mpr he
  unfold wgs_scale
  rw [radOfDeg_ninety, Real.sin_pi_div_two, radOfDeg_one, one_pow, mul_one,
    rpow_three_halves _ he.le]
  rw [div_mul_eq_mul_div, div_mul_eq_mul_div, div_eq_div_iff (by positivity) (by positivity)]
  ring

lemma wgs_scale_zero_bounds : 110573 ≤ wgs_scale 0 ∧ wgs_scale 0 ≤ 110575 := by
  rw [wgs_scale_zero_eq]
  have hπl := Real.pi_gt_3141592
  have hπu := Real.pi_lt_3141593
  constructor <;> (unfold wgsA wgsE; nlinarith)

lemma wgs_scale_ninety_bounds : 111693 ≤ wgs_scale 90 ∧ wgs_scale 90 ≤ 111695 := by
  rw [wgs_scale_ninety_eq]
  have hπl := Real.pi_gt_3141592
  have hπu := Real.pi_lt_3141593
  have hsb := wgs_sqrt_bounds
  have hs : 0 < Real.sqrt (1 - wgsE ^ 2) := by nlinarith [hsb.1]
  constructor
  · have h1 : wgsA / Real.sqrt (1 - wgsE ^ 2) ≥ wgsA / 0.99665 := by
      gcongr
      · norm_num [wgsA]
      · exact hsb.2
    have h2 : wgsA / (0.99665 : ℝ) * (π / 180) ≥ 111693 := by
      unfold wgsA
      nlinarith
    nlinarith [mul_le_mul_of_nonneg_right h1 (show (0 : ℝ) ≤ π / 180 by positivity)]
  · have h1 : wgsA / Real.sqrt (1 - wgsE ^ 2) ≤ wgsA / 0.99664 := by
      gcongr
      · norm_num [wgsA]
      · exact hsb.1
    have h2 : wgsA / (0.99664 : ℝ) * (π / 180) ≤ 111695 := by
      unfold wgsA
      nlinarith
    nlinarith [mul_le_mul_of_nonneg_right h1 (show (0 : ℝ) ≤ π / 180 by positivity)]

/-- `wgs_scale` is strictly increasing on latitudes in `[0, 90]`. -/
lemma wgs_scale_strictMono {l1 l2 : ℝ} (h0 : 0 ≤ l1) (h12 : l1 < l2) (h90 : l2 ≤ 90) :
    wgs_scale l1 < wgs_scale l2 := by
  have hπ := Real.pi_pos
  have hmem1 : radOfDeg l1 ∈ Set.Icc (-(π / 2)) (π / 2) := by
    constructor
    · have := radOfDeg_nonneg h0
      linarith
    · rw [← radOfDeg_ninety]
      exact radOfDeg_mono (by linarith)
  have hmem2 : radOfDeg l2 ∈ Set.Icc (-(π / 2)) (π / 2) := by
    constructor
    · have := radOfDeg_nonneg (by linarith : (0 : ℝ) ≤ l2)
      linarith
    · rw [← radOfDeg_ninety]
      exact radOfDeg_mono h90
  have hradlt : radOfDeg l1 < radOfDeg l2 := by
    unfold radOfDeg
    have h := sub_pos.mpr h12
    nlinarith
  have hsin : Real.sin (radOfDeg l1) < Real.sin (radOfDeg l2) :=
    Real.strictMonoOn_sin hmem1 hmem2 hradlt
  have hsin1 : 0 ≤ Real.sin (radOfDeg l1) :=
    Real.sin_nonneg_of_nonneg_of_le_pi (radOfDeg_nonneg h0)
      (radOfDeg_le_pi (by linarith))
  have hsq : Real.sin (radOfDeg l1) ^ 2 < Real.sin (radOfDeg l2) ^ 2 := by nlinarith
  have he2 : (0 : ℝ) < wgsE ^ 2 := by norm_num [wgsE]
  have hb1 := wgs_base_pos l1
  have hb2 := wgs_base_pos l2
  have hlt : 1 - wgsE ^ 2 * Real.sin (radOfDeg l2) ^ 2 <
      1 - wgsE ^ 2 * Real.sin (radOfDeg l1) ^ 2 := by nlinarith
  have hpow : (1 - wgsE ^ 2 * Real.sin (radOfDeg l2) ^ 2) ^ ((3 : ℝ) / 2) <
      (1 - wgsE ^ 2 * Real.sin (radOfDeg l1) ^ 2) ^ ((3 : ℝ) / 2) :=
    Real.rpow_lt_rpow hb2.le hlt (by norm_num)
  have hN : (0 : ℝ) < wgsA * (1 - wgsE ^ 2) := by norm_num [wgsA, wgsE]
  have hdiv : wgsA * (1 - wgsE ^ 2) / (1 - wgsE ^ 2 * Real.sin (radOfDeg l1) ^ 2) ^ ((3 : ℝ) / 2) <
      wgsA * (1 - wgsE ^ 2) / (1 - wgsE ^ 2 * Real.sin (radOfDeg l2) ^ 2) ^ ((3 : ℝ) / 2) :=
    div_lt_div_of_pos_left hN (Real.rpow_pos_of_pos hb2 _) hpow
  unfold wgs_scale
  have hr1 : 0 < radOfDeg 1 := by rw [radOfDeg_one]; positivity
  exact mul_lt_mul_of_pos_right hdiv hr1

/-- C7. `wgs_scale` equals the spec's meridian-arc formula `scaleAtLatitude`
(same WGS84 constants), is strictly increasing in latitude on `[0, 90]` —
in particular `wgs_scale 0 < wgs_scale 90` — and its endpoint values are
approximately 110,574 m/degree at the equator and 111,694 m/degree at the
pole (within 1 m/degree under the constants used). -/
theorem wgs_scale_spec :
    (∀ lat : ℝ, wgs_scale lat = scaleAtLatitude lat) ∧
      (∀ l1 l2 : ℝ, 0 ≤ l1 → l1 < l2 → l2 ≤ 90 → wgs_scale l1 < wgs_scale l2) ∧
      wgs_scale 0 < wgs_scale 90 ∧
      |wgs_scale 0 - 110574| ≤ 1 ∧ |wgs_scale 90 - 111694| ≤ 1 := by
  refine ⟨?_, fun l1 l2 h0 h12 h90 => wgs_scale_strictMono h0 h12 h90, ?_, ?_, ?_⟩
  · intro lat
    unfold wgs_scale scaleAtLatitude radOfDeg
    rw [one_mul]
  · have h0 := wgs_scale_zero_bounds
    have h90 := wgs_scale_ninety_bounds
    linarith [h0.2, h90.1]
  · have h0 := wgs_scale_zero_bounds
    rw [abs_le]
    constructor <;> linarith [h0.1, h0.2]
  · have h90 := wgs_scale_ninety_bounds
    rw [abs_le]
    constructor <;> linarith [h90.1, h90.2]

/-- C7 witness: the monotonicity conjunct applied at the concrete endpoint
latitudes 0 and 90. -/
theorem wgs_scale_spec_witness :
    (0 : ℝ) ≤ 0 ∧ (0 : ℝ) < 90 ∧ (90 : ℝ) ≤ 90 ∧ wgs_scale 0 < wgs_scale 90 :=
  ⟨le_refl 0, by norm_num, le_refl 90,
    wgs_scale_spec.2.1 0 90 (le_refl 0) (by norm_num) (le_refl 90)⟩

/-! ### The distance back-conversion of `cone_search_advanced` -/

lemma wgs_scale_zero_lt_ninety : wgs_scale 0 < wgs_scale 90 := by
  linarith [wgs_scale_zero_bounds.2, wgs_scale_ninety_bounds.1]

/-- A hypothetical record at the celestial pole, used to probe the
distance back-conversion. -/
def polarProbe : Doc := ⟨0, 180, 90, 0⟩

/-- A hypothetical record coinciding with a query center on the equator. -/
def zeroProbe : Doc := ⟨0, 180, 0, 0⟩

lemma radOfDeg_zero : radOfDeg 0 = 0 := by unfold radOfDeg; ring

lemma sepDeg_pole : sepDeg 0 0 0 90 = 90 := by
  have hπ := Real.pi_pos
  have hc : cosSep 0 0 0 90 = 0 := by
    unfold cosSep
    rw [radOfDeg_zero, radOfDeg_ninety, show (0 : ℝ) - 0 = 0 by ring, radOfDeg_zero]
    simp
  unfold sepDeg
  rw [hc, Real.arccos_zero]
  field_simp
  ring

lemma sepDeg_self : sepDeg 0 0 0 0 = 0 := by
  have hc : cosSep 0 0 0 0 = 1 := by
    unfold cosSep
    rw [radOfDeg_zero, show (0 : ℝ) - 0 = 0 by ring, radOfDeg_zero]
    simp
  unfold sepDeg
  rw [hc, Real.arccos_one]
  ring

/-- C1 counterexample. In the `$geoNear` pipeline centered at
`(ra, dec) = (180, 0)` with radius 95 degrees over a store holding one
record at the pole, the record is returned with linear distance
`111000 * 90 = 9990000`, and the code's reported degrees
(`distance / wgs_scale(doc.dec)`, i.e. divided at the record's latitude 90)
differ from the linear distance divided by `wgs_scale` at the center's
latitude 0, refuting the claim that the conversion divides at the center. -/
theorem coneSearchAdvanced_center_scale_cex :
    (polarProbe, (9990000 : ℝ)) ∈ cone_search_advanced 111000 [polarProbe] 180 0 95 ∧
      reportedDeg (polarProbe, (9990000 : ℝ)) ≠ 9990000 / wgs_scale 0 := by
  constructor
  · refine ⟨by simp, ?_, ?_⟩
    · show (9990000 : ℝ) = 111000 * sepDeg (180 - 180) 0 (polarProbe.ra - 180) polarProbe.dec
      rw [show polarProbe.ra - 180 = 0 by norm_num [polarProbe],
        show polarProbe.dec = (90 : ℝ) from rfl, show (180 : ℝ) - 180 = 0 by ring, sepDeg_pole]
      norm_num
    · show (9990000 : ℝ) ≤ meter_radius 95 0
      unfold meter_radius
      nlinarith [wgs_scale_zero_bounds.1]
  · show (9990000 : ℝ) / wgs_scale polarProbe.dec ≠ 9990000 / wgs_scale 0
    rw [show polarProbe.dec = (90 : ℝ) from rfl]
    have h0 := wgs_scale_pos 0
    have h90 := wgs_scale_pos 90
    have hlt := wgs_scale_zero_lt_ninety
    have : (9990000 : ℝ) / wgs_scale 90 < 9990000 / wgs_scale 0 :=
      div_lt_div_of_pos_left (by norm_num) h0 hlt
    exact ne_of_lt this

/-- C1 (amended). For every record returned by the distance-annotated cone
search, the reported angular distance equals the store's linear distance
divided by `wgs_scale` evaluated at the *matched record's* latitude
(`doc['coords']['dec']`), not at the search center's: multiplying the
reported degrees back by the scale at the record's latitude recovers the
stored linear distance exactly. -/
theorem coneSearchAdvanced_reported_record_latitude
    (K : ℝ) (docs : List Doc) (ra dec radius : ℝ) (p : Doc × ℝ)
    (hp : p ∈ cone_search_advanced K docs ra dec radius) :
    reportedDeg p * wgs_scale p.1.dec =
        K * sepDeg (ra - 180) dec (p.1.ra - 180) p.1.dec ∧
      reportedDeg p = p.2 / wgs_scale p.1.dec := by
  obtain ⟨-, hdist, -⟩ := hp
  refine ⟨?_, rfl⟩
  unfold reportedDeg
  rw [div_mul_cancel₀ _ (ne_of_gt (wgs_scale_pos p.1.dec))]
  exact hdist

/-- C1 witness: the amended theorem applied to the concrete record
`zeroProbe` returned at distance 0 by a search centered on it. -/
theorem coneSearchAdvanced_reported_record_latitude_witness :
    reportedDeg (zeroProbe, (0 : ℝ)) * wgs_scale (zeroProbe, (0 : ℝ)).1.dec =
        111000 * sepDeg ((180 : ℝ) - 180) 0 ((zeroProbe, (0 : ℝ)).1.ra - 180)
          (zeroProbe, (0 : ℝ)).1.dec ∧
      reportedDeg (zeroProbe, (0 : ℝ)) = (0 : ℝ) / wgs_scale (zeroProbe, (0 : ℝ)).1.dec :=
  coneSearchAdvanced_reported_record_latitude 111000 [zeroProbe] 180 0 1 (zeroProbe, 0)
    ⟨by simp, by
      show (0 : ℝ) = 111000 * sepDeg (180 - 180) 0 (zeroProbe.ra - 180) zeroProbe.dec
      rw [show zeroProbe.ra - 180 = 0 by norm_num [zeroProbe],
        show zeroProbe.dec = (0 : ℝ) from rfl, show (180 : ℝ) - 180 = 0 by ring, sepDeg_self]
      norm_num, by
      show (0 : ℝ) ≤ meter_radius 1 0
      unfold meter_radius
      nlinarith [wgs_scale_pos 0]⟩

/-! ### The ellipsoid-strategy scenario (center 220, 12, radius 10 deg) -/

/-- A record whose declination differs from the center's 12 degrees by at
least 13 degrees lies outside any plausible linear threshold for a
10-degree search. -/
lemma c5_excl_dec {K ra2 dec2 : ℝ} (hK : 110000 ≤ K)
    (hd2a : -90 ≤ dec2) (hd2b : dec2 ≤ 90)
    (hΔ : 13 ≤ 12 - dec2 ∨ 13 ≤ dec2 - 12) :
    ¬ K * sepDeg 40 12 ra2 dec2 ≤ 10 * wgs_scale 12 := by
  intro h
  have hsep := sepDeg_ge_decDiff 40 12 ra2 dec2
    (by norm_num : (-90 : ℝ) ≤ 12) (by norm_num : (12 : ℝ) ≤ 90) hd2a hd2b
  have h13 : (13 : ℝ) ≤ sepDeg 40 12 ra2 dec2 := by
    rcases hΔ with h' | h'
    · linarith [hsep.1]
    · linarith [hsep.2]
  have hw := wgs_scale_global_bounds 12
  nlinarith [mul_nonneg (sub_nonneg.2 hK) (sub_nonneg.2 h13)]

/-- A record whose right ascension differs from the center's by between 90
and 270 degrees lies outside any plausible linear threshold for a 10-degree
search. -/
lemma c5_excl_lon {K ra2 dec2 : ℝ} (hK : 110000 ≤ K)
    (hd2a : -90 ≤ dec2) (hd2b : dec2 ≤ 90)
    (hB : (90 ≤ 40 - ra2 ∧ 40 - ra2 ≤ 270) ∨ (90 ≤ ra2 - 40 ∧ ra2 - 40 ≤ 270)) :
    ¬ K * sepDeg 40 12 ra2 dec2 ≤ 10 * wgs_scale 12 := by
  intro h
  have h103 : (10.3 : ℝ) ≤ sepDeg 40 12 ra2 dec2 := sepDeg_lon_far hd2a hd2b hB
  have hw := wgs_scale_global_bounds 12
  nlinarith [mul_nonneg (sub_nonneg.2 hK) (sub_nonneg.2 h103)]

/-- A record within a declination-difference plus longitude-difference sum
of 8 degrees of the center is inside any plausible linear threshold for a
10-degree search. -/
lemma c5_incl {K ra2 dec2 A B : ℝ} (hKu : K ≤ 112000)
    (hA0 : 0 ≤ A) (hB0 : 0 ≤ B) (hAB : A + B ≤ 8)
    (hdec : 12 - dec2 = A ∨ dec2 - 12 = A)
    (hra : 40 - ra2 = B ∨ ra2 - 40 = B)
    (hd0 : 0 ≤ dec2) (hd90 : dec2 ≤ 90) :
    K * sepDeg 40 12 ra2 dec2 ≤ 10 * wgs_scale 12 := by
  have hsin : 0 ≤ Real.sin (radOfDeg 12) * Real.sin (radOfDeg dec2) :=
    mul_nonneg
      (Real.sin_nonneg_of_nonneg_of_le_pi (radOfDeg_nonneg (by norm_num))
        (radOfDeg_le_pi (by norm_num)))
      (Real.sin_nonneg_of_nonneg_of_le_pi (radOfDeg_nonneg hd0)
        (radOfDeg_le_pi (by linarith)))
  have hsep : sepDeg 40 12 ra2 dec2 ≤ A + B :=
    sepDeg_le_sum hA0 hB0 (by linarith) hdec hra hsin
  have hsep0 := sepDeg_nonneg 40 12 ra2 dec2
  have hw := wgs_scale_global_bounds 12
  nlinarith [mul_le_mul hKu hsep hsep0 (by norm_num : (0 : ℝ) ≤ 112000)]

/-- C5. Over the 22-record fixture, the ellipsoid-strategy `cone_search`
with center `(ra, dec) = (220, 12)` and radius 10 degrees returns exactly
the records with catalog coordinates `(222.106791, 10.533056)` and
`(219.868167, 19.487472)` and no other record, for any store whose
meters-per-degree constant `K` lies within the WGS84 plausibility range
`[110000, 112000]`. -/
theorem bd_cone_search_scenario (K : ℝ) (hKl : 110000 ≤ K) (hKu : K ≤ 112000) :
    ∀ d ∈ bdFixture, (d ∈ cone_search K bdFixture 220 12 10 ↔ d = bd4 ∨ d = bd7) := by
  intro d hd
  have hmem : d ∈ cone_search K bdFixture 220 12 10 ↔
      K * sepDeg 40 12 (d.ra - 180) d.dec ≤ 10 * wgs_scale 12 := by
    unfold cone_search nearSphereWithin meter_radius
    rw [Set.mem_setOf_eq, show (220 : ℝ) - 180 = 40 by norm_num]
    exact ⟨fun h => h.2, fun h => ⟨hd, h⟩⟩
  rw [hmem]
  simp only [bdFixture] at hd
  fin_cases hd
  · -- bd11 (181.889, -39.548): far in declination
    exact ⟨fun h => absurd h (c5_excl_dec hKl (by norm_num [bd11]) (by norm_num [bd11])
        (Or.inl (by norm_num [bd11]))),
      fun h => by rcases h with h | h <;> norm_num [bd11, bd4, bd7, Doc.mk.injEq] at h⟩
  · -- source 2 (202.95387, -1.280556): far in declination
    exact ⟨fun h => absurd h (c5_excl_dec hKl (by norm_num) (by norm_num)
        (Or.inl (by norm_num))),
      fun h => by rcases h with h | h <;> norm_num [bd4, bd7, Doc.mk.injEq] at h⟩
  · -- bd4 (222.106791, 10.533056): inside
    exact ⟨fun _ => Or.inl rfl,
      fun _ => c5_incl hKu (A := 1.466944) (B := 2.106791) (by norm_num) (by norm_num)
        (by norm_num) (Or.inl (by norm_num [bd4])) (Or.inr (by norm_num [bd4]))
        (by norm_num [bd4]) (by norm_num [bd4])⟩
  · -- bd7 (219.868167, 19.487472): inside
    exact ⟨fun _ => Or.inr rfl,
      fun _ => c5_incl hKu (A := 7.487472) (B := 0.131833) (by norm_num) (by norm_num)
        (by norm_num) (Or.inr (by norm_num [bd7])) (Or.inl (by norm_num [bd7]))
        (by norm_num [bd7]) (by norm_num [bd7])⟩
  · -- source 14 (342.472709, 0.734611): far in right ascension
    exact ⟨fun h => absurd h (c5_excl_lon hKl (by norm_num) (by norm_num)
        (Or.inr (by norm_num))),
      fun h => by rcases h with h | h <;> norm_num [bd4, bd7, Doc.mk.injEq] at h⟩
  · -- source 15 (332.05679, 29.355972): far in right ascension
    exact ⟨fun h => absurd h (c5_excl_lon hKl (by norm_num) (by norm_num)
        (Or.inr (by norm_num))),
      fun h => by rcases h with h | h <;> norm_num [bd4, bd7, Doc.mk.injEq] at h⟩
  · -- source 17 (6.924875, 5.061583): far in right ascension
    exact ⟨fun h => absurd h (c5_excl_lon hKl (by norm_num) (by norm_num)
        (Or.inl (by norm_num))),
      fun h => by rcases h with h | h <;> norm_num [bd4, bd7, Doc.mk.injEq] at h⟩
  · -- source 19 (327.068041, 40.0665): far in right ascension
    exact ⟨fun h => absurd h (c5_excl_lon hKl (by norm_num) (by norm_num)
        (Or.inr (by norm_num))),
      fun h => by rcases h with h | h <;> norm_num [bd4, bd7, Doc.mk.injEq] at h⟩
  · -- source 20 (165.54097, -34.509869): far in declination
    exact ⟨fun h => absurd h (c5_excl_dec hKl (by norm_num) (by norm_num)
        (Or.inl (by norm_num))),
      fun h => by rcases h with h | h <;> norm_num [bd4, bd7, Doc.mk.injEq] at h⟩
  · -- source 32 (63.831417, -9.585167): far in right ascension
    exact ⟨fun h => absurd h (c5_excl_lon hKl (by norm_num) (by norm_num)
        (Or.inl (by norm_num))),
      fun h => by rcases h with h | h <;> norm_num [bd4, bd7, Doc.mk.injEq] at h⟩
  · -- source 34 (111.826001, 17.167): far in right ascension
    exact ⟨fun h => absurd h (c5_excl_lon hKl (by norm_num) (by norm_num)
        (Or.inl (by norm_num))),
      fun h => by rcases h with h | h <;> norm_num [bd4, bd7, Doc.mk.injEq] at h⟩
  · -- source 36 (72.753833, -34.0375): far in right ascension
    exact ⟨fun h => absurd h (c5_excl_lon hKl (by norm_num) (by norm_num)
        (Or.inl (by norm_num))),
      fun h => by rcases h with h | h <;> norm_num [bd4, bd7, Doc.mk.injEq] at h⟩
  · -- source 53 (228.753459, 48.794889): far in declination
    exact ⟨fun h => absurd h (c5_excl_dec hKl (by norm_num) (by norm_num)
        (Or.inr (by norm_num))),
      fun h => by rcases h with h | h <;> norm_num [bd4, bd7, Doc.mk.injEq] at h⟩
  · -- source 61 (191.309, -44.485477): far in declination
    exact ⟨fun h => absurd h (c5_excl_dec hKl (by norm_num) (by norm_num)
        (Or.inl (by norm_num))),
      fun h => by rcases h with h | h <;> norm_num [bd4, bd7, Doc.mk.injEq] at h⟩
  · -- source 63 (53.537667, -49.893944): far in right ascension
    exact ⟨fun h => absurd h (c5_excl_lon hKl (by norm_num) (by norm_num)
        (Or.inl (by norm_num))),
      fun h => by rcases h with h | h <;> norm_num [bd4, bd7, Doc.mk.injEq] at h⟩
  · -- source 80 (238.24591, 29.81342): far in declination
    exact ⟨fun h => absurd h (c5_excl_dec hKl (by norm_num) (by norm_num)
        (Or.inr (by norm_num))),
      fun h => by rcases h with h | h <;> norm_num [bd4, bd7, Doc.mk.injEq] at h⟩
  · -- source 82 (278.90792, 32.998497): far in declination
    exact ⟨fun h => absurd h (c5_excl_dec hKl (by norm_num) (by norm_num)
        (Or.inr (by norm_num))),
      fun h => by rcases h with h | h <;> norm_num [bd4, bd7, Doc.mk.injEq] at h⟩
  · -- source 83 (236.94662, -24.397028): far in declination
    exact ⟨fun h => absurd h (c5_excl_dec hKl (by norm_num) (by norm_num)
        (Or.inl (by norm_num))),
      fun h => by rcases h with h | h <;> norm_num [bd4, bd7, Doc.mk.injEq] at h⟩
  · -- source 86 (9.067376, 18.352889): far in right ascension
    exact ⟨fun h => absurd h (c5_excl_lon hKl (by norm_num) (by norm_num)
        (Or.inl (by norm_num))),
      fun h => by rcases h with h | h <;> norm_num [bd4, bd7, Doc.mk.injEq] at h⟩
  · -- source 91 (79.692333, -27.946028): far in right ascension
    exact ⟨fun h => absurd h (c5_excl_lon hKl (by norm_num) (by norm_num)
        (Or.inl (by norm_num))),
      fun h => by rcases h with h | h <;> norm_num [bd4, bd7, Doc.mk.injEq] at h⟩
  · -- source 96 (42.170846, -16.856022): far in right ascension
    exact ⟨fun h => absurd h (c5_excl_lon hKl (by norm_num) (by norm_num)
        (Or.inl (by norm_num))),
      fun h => by rcases h with h | h <;> norm_num [bd4, bd7, Doc.mk.injEq] at h⟩
  · -- source 98 (40.297958, -3.449639): far in right ascension
    exact ⟨fun h => absurd h (c5_excl_lon hKl (by norm_num) (by norm_num)
        (Or.inl (by norm_num))),
      fun h => by rcases h with h | h <;> norm_num [bd4, bd7, Doc.mk.injEq] at h⟩

/-- C5 witness: the scenario theorem applied at the concrete store constant
`K = 111000` and the record `bd4`, which is returned. -/
theorem bd_cone_search_scenario_witness :
    bd4 ∈ cone_search 111000 bdFixture 220 12 10 :=
  (bd_cone_search_scenario 111000 (by norm_num) (by norm_num) bd4
    (by simp [bdFixture])).mpr (Or.inl rfl)

/-! ### The HEALPix scenario (center 181.9, -39.5, radius 180 arcsec) -/

/-- The record `1207-3932` lies within 180 arcsec (= 1/20 degree) of the
scenario center `(181.9, -39.5)`: its separation is about 175.5 arcsec. -/
lemma sep_bd11_close : sepDeg 181.9 (-39.5) 181.889 (-39.548) ≤ 1 / 20 := by
  have hπl := Real.pi_gt_3141592
  have hπu := Real.pi_lt_3141593
  have hπ := Real.pi_pos
  -- cosines of the two declinations lie in [0, 1]
  have hc1a : 0 ≤ Real.cos (radOfDeg (-39.5)) :=
    cos_radOfDeg_nonneg (by norm_num) (by norm_num)
  have hc2a : 0 ≤ Real.cos (radOfDeg (-39.548)) :=
    cos_radOfDeg_nonneg (by norm_num) (by norm_num)
  have hc1b : Real.cos (radOfDeg (-39.5)) ≤ 1 := Real.cos_le_one _
  have hc2b : Real.cos (radOfDeg (-39.548)) ≤ 1 := Real.cos_le_one _
  -- quadratic upper bounds on the two angle offsets
  have hU0 : 0 ≤ radOfDeg 0.048 := radOfDeg_nonneg (by norm_num)
  have hUu : radOfDeg 0.048 ≤ 0.00083775814 := by unfold radOfDeg; nlinarith
  have hV0 : 0 ≤ radOfDeg 0.011 := radOfDeg_nonneg (by norm_num)
  have hVu : radOfDeg 0.011 ≤ 0.00019198624 := by unfold radOfDeg; nlinarith
  have hb048 := Real.one_sub_sq_div_two_le_cos (x := radOfDeg 0.048)
  have hb011 := Real.one_sub_sq_div_two_le_cos (x := radOfDeg 0.011)
  have hcos011_le : Real.cos (radOfDeg 0.011) ≤ 1 := Real.cos_le_one _
  -- lower bound on 1 - cos(radius) via the half angle
  have hy0 : 0 < radOfDeg 0.025 := by unfold radOfDeg; positivity
  have hyu : radOfDeg 0.025 ≤ 0.00043633237 := by unfold radOfDeg; nlinarith
  have hyl : (0.00043633222 : ℝ) ≤ radOfDeg 0.025 := by unfold radOfDeg; nlinarith
  have hy1 : radOfDeg 0.025 ≤ 1 := by linarith
  have hsin3 := Real.sin_gt_sub_cube hy0 hy1
  have hy3 : radOfDeg 0.025 ^ 3 ≤ 0.00000000009 := by
    nlinarith [pow_le_pow_left hy0.le hyu 3]
  have hsinl : (0.000436332 : ℝ) ≤ Real.sin (radOfDeg 0.025) := by nlinarith
  have hcoshalf : Real.cos (radOfDeg (1 / 20)) =
      1 - 2 * Real.sin (radOfDeg 0.025) ^ 2 := by
    rw [show radOfDeg (1 / 20 : ℝ) = 2 * radOfDeg 0.025 by unfold radOfDeg; ring,
      Real.cos_two_mul]
    linear_combination 2 * Real.sin_sq_add_cos_sq (radOfDeg 0.025)
  -- the cosine comparison
  have hkey : Real.cos (radOfDeg (1 / 20)) ≤ cosSep 181.9 (-39.5) 181.889 (-39.548) := by
    rw [cosSep_eq, show (-39.5 : ℝ) - -39.548 = 0.048 by norm_num,
      show (181.9 : ℝ) - 181.889 = 0.011 by norm_num, hcoshalf]
    nlinarith [mul_le_one₀ hc1b hc2a hc2b, mul_nonneg hc1a hc2a, sq_nonneg (Real.sin (radOfDeg 0.025))]
  exact sepDeg_le_of_cosSep_ge (by norm_num) (by norm_num) hkey

/-- Declination bounds of every fixture record. -/
lemma bdFixture_dec_bounds : ∀ d ∈ bdFixture, -90 ≤ d.dec ∧ d.dec ≤ 90 := by
  intro d hd
  simp only [bdFixture] at hd
  fin_cases hd <;> norm_num [bd11, bd4, bd7]

/-- C6. At 10-arcsec resolution (pixel footprints no larger than the 0.1
degree `slack` allowed here), the HEALPix `cone_search` with center
`(181.9, -39.5)` and radius 180 arcsec over the fixture returns exactly the
record at `(181.889, -39.548)` and no other. The pixel enumeration is
modelled from the spec: `conePix` contains the stored pixel of every record
within the disc (the record sits in its own pixel's footprint, which then
intersects the disc) and only pixels whose footprint meets the disc, so a
record with an enumerated pixel is within radius-plus-`slack` of the
center. -/
theorem hp_cone_search_scenario (conePix : ℝ → ℝ → ℚ → Set ℤ) (slack : ℝ)
    (_hs0 : 0 ≤ slack) (hs1 : slack ≤ 1 / 10)
    (hmem : ∀ d ∈ bdFixture, sepDeg 181.9 (-39.5) d.ra d.dec ≤ 1 / 20 →
        d.healpix ∈ conePix 181.9 (-39.5) 180)
    (hsound : ∀ d ∈ bdFixture, d.healpix ∈ conePix 181.9 (-39.5) 180 →
        sepDeg 181.9 (-39.5) d.ra d.dec ≤ 1 / 20 + slack) :
    ∃ S, hpConeSearch conePix bdFixture 181.9 (-39.5) 180 = Except.ok S ∧
      ∀ d ∈ bdFixture, (d ∈ S ↔ d = bd11) := by
  refine ⟨_, by unfold hpConeSearch; rw [if_neg (by norm_num)], ?_⟩
  intro d hd
  constructor
  · rintro ⟨-, hp⟩
    have hclose := hsound d hd hp
    have hdecb := bdFixture_dec_bounds d hd
    have hge := sepDeg_ge_decDiff 181.9 (-39.5) d.ra d.dec
      (by norm_num : (-90 : ℝ) ≤ -39.5) (by norm_num : (-39.5 : ℝ) ≤ 90)
      hdecb.1 hdecb.2
    have hd1 : -39.65 ≤ d.dec := by linarith [hge.1]
    have hd2 : d.dec ≤ -39.35 := by linarith [hge.2]
    simp only [bdFixture] at hd
    fin_cases hd
    · rfl
    all_goals norm_num [bd11, bd4, bd7] at hd1 hd2
  · rintro rfl
    exact ⟨hd, hmem bd11 hd sep_bd11_close⟩

/-- The spec-level cone enumeration instantiated for the fixture: the set of
stored pixel identifiers of fixture records within the angular radius. -/
def hpConePixInst : ℝ → ℝ → ℚ → Set ℤ := fun ra dec r =>
  {p | ∃ d ∈ bdFixture, d.healpix = p ∧ sepDeg ra dec d.ra d.dec ≤ (r : ℝ) / 3600}

/-- The 22 stored HEALPix identifiers are pairwise distinct. -/
lemma bdFixture_healpix_nodup : (bdFixture.map Doc.healpix).Nodup := by
  decide

lemma hpConePixInst_mem : ∀ d ∈ bdFixture,
    sepDeg 181.9 (-39.5) d.ra d.dec ≤ 1 / 20 →
      d.healpix ∈ hpConePixInst 181.9 (-39.5) 180 := by
  intro d hd hsep
  refine ⟨d, hd, rfl, ?_⟩
  push_cast
  linarith

lemma hpConePixInst_sound : ∀ d ∈ bdFixture,
    d.healpix ∈ hpConePixInst 181.9 (-39.5) 180 →
      sepDeg 181.9 (-39.5) d.ra d.dec ≤ 1 / 20 + 1 / 10 := by
  rintro d hd ⟨d', hd', hheq, hsep⟩
  have heq : d' = d :=
    List.inj_on_of_nodup_map bdFixture_healpix_nodup hd' hd hheq
  subst heq
  push_cast at hsep
  linarith

/-- C6 witness: the scenario theorem applied to the concrete spec-level
enumeration `hpConePixInst` with `slack = 1/10`. -/
theorem hp_cone_search_scenario_witness :
    ∃ S, hpConeSearch hpConePixInst bdFixture 181.9 (-39.5) 180 = Except.ok S ∧
      ∀ d ∈ bdFixture, (d ∈ S ↔ d = bd11) :=
  hp_cone_search_scenario hpConePixInst (1 / 10) (by norm_num) (by norm_num)
    hpConePixInst_mem hpConePixInst_sound
